import Mathlib

/-!
Shallow embedding of the Alduin CLI agent (src/alduin/main.py, src/alduin/llm.py).

The embedding follows the source:
* `execute_tool` models the tool dispatcher, returning both the outcome string
  and the ordered trace of writes to the observational layer (the `ui.print_*`
  calls on the Rich console).
* `innerRound` / `innerLoop` / `outerIter` / `session` model `agent_loop`:
  the inner tool-calling loop over model rounds and the outer loop over user
  turns.  The external model gateway (`llm.call`) is abstracted as a script
  `Nat → LLMResponse` giving the response of each round; the round counter of
  `innerLoop` counts how many model calls occur.
* `main` models the entry point's credential check.
Python exceptions raised by a tool body are modelled by tools returning
`Except String String` (error message or result); calling the `None` obtained
from a failed dict lookup raises a `TypeError` whose message is `noneCallMsg`.
-/

namespace Alduin

/-- Keyword-argument map handed to a tool (`block.input` / `**args`). -/
abbrev Args : Type := List (String × String)

/-- A tool implementation: from arguments to either a fault message
(a raised exception) or a result string. -/
abbrev Tool : Type := Args → Except String String

/-- A content block of a model response: `block.type == 'text'` or
`block.type == 'tool_use'` in `agent_loop`. -/
inductive ContentBlock : Type
  | text (t : String)
  | toolUse (id name : String) (input : Args)
deriving DecidableEq

/-- Token-usage counters of a response (`llm_response.usage`). -/
structure Usage : Type where
  input_tokens : Nat
  output_tokens : Nat
deriving DecidableEq

/-- One model response: ordered content blocks plus usage counters. -/
structure LLMResponse : Type where
  content : List ContentBlock
  usage : Usage
deriving DecidableEq

/-- One entry of the `tool_results` list built in `agent_loop`:
`{"type": "tool_result", "tool_use_id": block.id, "content": result}`. -/
structure ToolResultEntry : Type where
  tool_use_id : String
  content : String
deriving DecidableEq

/-- The content payload of a conversation turn: a plain user string, the
assistant's block list, or a list of tool results. -/
inductive TurnContent : Type
  | text (s : String)
  | blocks (bs : List ContentBlock)
  | results (rs : List ToolResultEntry)
deriving DecidableEq

/-- One turn of the conversation history (`{"role": ..., "content": ...}`). -/
structure Turn : Type where
  role : String
  content : TurnContent
deriving DecidableEq

/-- A write to the observational layer: the `ui.print_*` calls. -/
inductive UIEvent : Type
  | toolError (name error : String)
  | toolRequest (name : String) (args : Args)
  | toolResult (name result : String)
  | assistantReply (text : String) (input_tokens output_tokens : Nat)
  | userMessage (text : String)
  | errorMsg (msg : String)
  | banner
  | goodbye
deriving DecidableEq

/-- Model of `tools_lookup = {t.__name__: t for t in active_tools}`: a Python
dict comprehension builds the lookup left to right, a later binding of the
same key overwriting the earlier one. -/
def buildLookup (tools : List (String × Tool)) : String → Option Tool :=
  tools.foldl (fun acc p => fun n => if n = p.1 then some p.2 else acc n)
    (fun _ => none)

/-- CPython message of the `TypeError` raised by `tool_fn(**args)` when
`tool_fn` is `None` (lookup miss in `execute_tool`). -/
def noneCallMsg : String := "'NoneType' object is not callable"

/-- Model of `tool_fn(**args)` where `tool_fn` came from
`tools_lookup_table.get(...)`: calling the `None` of a failed lookup raises,
a found tool runs its body. -/
def invokeLookup (fn : Option Tool) (args : Args) : Except String String :=
  match fn with
  | none => Except.error noneCallMsg
  | some f => f args

/-- Dispatcher `execute_tool` from src/alduin/main.py: resolve the name, report a
"do not exists" error on a miss (without returning), report the request,
invoke, and on success report and return the result, on any exception
report and return `Error: Calling tool {name}\n{e}`.  Returns the outcome
string together with the ordered observational-layer trace. -/
def execute_tool (name : String) (table : String → Option Tool) (args : Args) :
    String × List UIEvent :=
  let fn := table name
  let preEvents : List UIEvent :=
    (match fn with
     | none =>
        [UIEvent.toolError name ("Error: Requested tool do not exists " ++ name)]
     | some _ => [])
    ++ [UIEvent.toolRequest name args]
  match invokeLookup fn args with
  | Except.ok result => (result, preEvents ++ [UIEvent.toolResult name result])
  | Except.error e =>
      let error_msg := "Error: Calling tool " ++ name ++ "\n" ++ e
      (error_msg, preEvents ++ [UIEvent.toolError name error_msg])

/-- Is this trace event a request report (`ui.print_tool_request`)? -/
def isRequestEvent : UIEvent → Bool
  | UIEvent.toolRequest _ _ => true
  | _ => false

/-- Is this trace event an outcome report (`ui.print_tool_result` or
`ui.print_tool_error`)? -/
def isOutcomeEvent : UIEvent → Bool
  | UIEvent.toolResult _ _ => true
  | UIEvent.toolError _ _ => true
  | _ => false

/-- Number of request reports in a trace. -/
def countRequests (tr : List UIEvent) : Nat := (tr.filter isRequestEvent).length

/-- Number of outcome (success or error) reports in a trace. -/
def countOutcomes (tr : List UIEvent) : Nat := (tr.filter isOutcomeEvent).length

/-- The `tool_results` list built by the `for block in llm_response.content`
loop of `agent_loop`: one entry per `tool_use` block, in block order. -/
def roundToolResults (table : String → Option Tool) :
    List ContentBlock → List ToolResultEntry
  | [] => []
  | ContentBlock.text _ :: rest => roundToolResults table rest
  | ContentBlock.toolUse id name input :: rest =>
      ⟨id, (execute_tool name table input).1⟩ :: roundToolResults table rest

/-- The identifiers of the `tool_use` blocks of a response, in order. -/
def toolUseIds : List ContentBlock → List String
  | [] => []
  | ContentBlock.text _ :: rest => toolUseIds rest
  | ContentBlock.toolUse id _ _ :: rest => id :: toolUseIds rest

/-- The number of `tool_use` blocks of a response. -/
def countToolUses : List ContentBlock → Nat
  | [] => 0
  | ContentBlock.text _ :: rest => countToolUses rest
  | ContentBlock.toolUse _ _ _ :: rest => countToolUses rest + 1

/-- Does the block list contain at least one `tool_use` block? -/
def hasToolUse : List ContentBlock → Bool
  | [] => false
  | ContentBlock.text _ :: rest => hasToolUse rest
  | ContentBlock.toolUse _ _ _ :: _ => true

/-- One iteration of the inner `while True` loop of `agent_loop`, given the
model response of this round: append the assistant turn, dispatch the
`tool_use` blocks, and either stop (`break` when `tool_results` is empty) or
append the tool-result turn and continue.  Returns the new conversation and
whether the loop continues for another model round. -/
def innerRound (table : String → Option Tool) (conv : List Turn)
    (resp : LLMResponse) : List Turn × Bool :=
  let conv1 := conv ++ [⟨"assistant", TurnContent.blocks resp.content⟩]
  let tool_results := roundToolResults table resp.content
  if tool_results.isEmpty then (conv1, false)
  else (conv1 ++ [⟨"user", TurnContent.results tool_results⟩], true)

/-- The inner tool-calling loop of `agent_loop`: `script i` is the response of
the model gateway at round `i`; `fuel` bounds the number of rounds (the Python
loop has no bound of its own).  Returns the final conversation and the number
of model rounds performed. -/
def innerLoop (table : String → Option Tool) (script : Nat → LLMResponse) :
    Nat → Nat → List Turn → List Turn × Nat
  | 0, _, conv => (conv, 0)
  | fuel + 1, i, conv =>
      let r := innerRound table conv (script i)
      if r.2 then
        let rest := innerLoop table script fuel (i + 1) r.1
        (rest.1, rest.2 + 1)
      else (r.1, 1)

/-- Model of Python's `str.strip()` with no argument: remove leading and
trailing whitespace characters. -/
def strip (s : String) : String :=
  String.mk
    (((s.data.dropWhile Char.isWhitespace).reverse.dropWhile
        Char.isWhitespace).reverse)

/-- One iteration of the outer `while True` loop of `agent_loop` for a raw
input line: strip it, on empty input `continue` without touching the
conversation or the model, otherwise append the user turn and run the inner
loop.  Returns the new conversation and the number of model calls made. -/
def outerIter (table : String → Option Tool) (script : Nat → LLMResponse)
    (fuel : Nat) (raw : String) (conv : List Turn) : List Turn × Nat :=
  let user_input := strip raw
  if user_input.isEmpty then (conv, 0)
  else innerLoop table script fuel 0
    (conv ++ [⟨"user", TurnContent.text user_input⟩])

/-- A whole session of `agent_loop`: one `(raw input, model script)` pair per
outer iteration, ending at end-of-input. -/
def session (table : String → Option Tool) (fuel : Nat) :
    List (String × (Nat → LLMResponse)) → List Turn → List Turn
  | [], conv => conv
  | (raw, script) :: rest, conv =>
      session table fuel rest (outerIter table script fuel raw conv).1

/-- Error printed by `main` when the credential is missing. -/
def apiKeyErrorMsg : String :=
  "ANTHROPIC_API_KEY environment variable is not set."

/-- Entry point `main` from src/alduin/main.py: print the banner, read
`os.getenv("ANTHROPIC_API_KEY")` (`none` when unset), and on a falsy value
(`None` or the empty string) print a user-facing error and return without
entering `agent_loop`.  Returns the observational trace and whether the
agent loop was entered. -/
def main (api_key : Option String) : List UIEvent × Bool :=
  match api_key with
  | none => ([UIEvent.banner, UIEvent.errorMsg apiKeyErrorMsg], false)
  | some k =>
      if k.isEmpty then ([UIEvent.banner, UIEvent.errorMsg apiKeyErrorMsg], false)
      else ([UIEvent.banner], true)

/-- Property of a string beginning with the prefix `p`. -/
def beginsWith (p s : String) : Prop := p.data <+: s.data

/-- Last binding of `n` in an association list, mirroring the lookup
behaviour of a Python dict built left to right. -/
def lastMatch (l : List (String × Tool)) (n : String) : Option Tool :=
  match l with
  | [] => none
  | p :: rest =>
      match lastMatch rest n with
      | some t => some t
      | none => if n = p.1 then some p.2 else none

theorem buildLookup_foldl (l : List (String × Tool)) :
    ∀ (acc : String → Option Tool) (n : String),
      (l.foldl (fun acc p => fun m => if m = p.1 then some p.2 else acc m) acc) n
        = match lastMatch l n with
          | some t => some t
          | none => acc n := by
  induction l with
  | nil => intro acc n; rfl
  | cons p rest ih =>
      intro acc n
      simp only [List.foldl_cons]
      rw [ih]
      cases h : lastMatch rest n with
      | some t => simp [lastMatch, h]
      | none =>
          simp only [lastMatch, h]
          by_cases hn : n = p.1
          · simp [hn]
          · simp [hn]

theorem buildLookup_eq_lastMatch (l : List (String × Tool)) (n : String) :
    buildLookup l n = lastMatch l n := by
  unfold buildLookup
  rw [buildLookup_foldl]
  cases lastMatch l n <;> rfl

theorem lastMatch_append (xs ys : List (String × Tool)) (n : String) :
    lastMatch (xs ++ ys) n =
      match lastMatch ys n with
      | some t => some t
      | none => lastMatch xs n := by
  induction xs with
  | nil =>
      simp only [List.nil_append]
      cases lastMatch ys n <;> rfl
  | cons p rest ih =>
      simp only [List.cons_append, lastMatch, List.append_eq]
      rw [ih]
      cases lastMatch ys n
      · cases lastMatch rest n <;> simp
      · simp

theorem lastMatch_eq_none (l : List (String × Tool)) (n : String)
    (h : ∀ p ∈ l, p.1 ≠ n) : lastMatch l n = none := by
  induction l with
  | nil => rfl
  | cons p rest ih =>
      simp only [lastMatch]
      rw [ih (fun q hq => h q (List.mem_cons_of_mem _ hq))]
      have hp : ¬ (n = p.1) := fun hn => h p (List.mem_cons_self _ _) hn.symm
      simp [hp]

theorem execute_tool_none (name : String) (table : String → Option Tool)
    (args : Args) (h : table name = none) :
    execute_tool name table args
      = ("Error: Calling tool " ++ name ++ "\n" ++ noneCallMsg,
         [UIEvent.toolError name ("Error: Requested tool do not exists " ++ name),
          UIEvent.toolRequest name args,
          UIEvent.toolError name
            ("Error: Calling tool " ++ name ++ "\n" ++ noneCallMsg)]) := by
  simp [execute_tool, invokeLookup, h]

theorem execute_tool_found_ok (name : String) (table : String → Option Tool)
    (args : Args) (f : Tool) (r : String)
    (hf : table name = some f) (hr : f args = Except.ok r) :
    execute_tool name table args
      = (r, [UIEvent.toolRequest name args, UIEvent.toolResult name r]) := by
  simp [execute_tool, invokeLookup, hf, hr]

theorem execute_tool_found_err (name : String) (table : String → Option Tool)
    (args : Args) (f : Tool) (e : String)
    (hf : table name = some f) (he : f args = Except.error e) :
    execute_tool name table args
      = ("Error: Calling tool " ++ name ++ "\n" ++ e,
         [UIEvent.toolRequest name args,
          UIEvent.toolError name ("Error: Calling tool " ++ name ++ "\n" ++ e)]) := by
  simp [execute_tool, invokeLookup, hf, he]

theorem roundToolResults_map_id (table : String → Option Tool)
    (bs : List ContentBlock) :
    (roundToolResults table bs).map ToolResultEntry.tool_use_id = toolUseIds bs := by
  induction bs with
  | nil => rfl
  | cons b rest ih =>
      cases b with
      | text t => simpa [roundToolResults, toolUseIds] using ih
      | toolUse id name input => simp [roundToolResults, toolUseIds, ih]

theorem roundToolResults_length (table : String → Option Tool)
    (bs : List ContentBlock) :
    (roundToolResults table bs).length = countToolUses bs := by
  induction bs with
  | nil => rfl
  | cons b rest ih =>
      cases b with
      | text t => simpa [roundToolResults, countToolUses] using ih
      | toolUse id name input => simp [roundToolResults, countToolUses, ih]

theorem roundToolResults_isEmpty (table : String → Option Tool)
    (bs : List ContentBlock) :
    (roundToolResults table bs).isEmpty = !hasToolUse bs := by
  induction bs with
  | nil => rfl
  | cons b rest ih =>
      cases b with
      | text t => simpa [roundToolResults, hasToolUse] using ih
      | toolUse id name input => simp [roundToolResults, hasToolUse]

theorem innerRound_continue (table : String → Option Tool) (conv : List Turn)
    (resp : LLMResponse) :
    (innerRound table conv resp).2 = hasToolUse resp.content := by
  simp only [innerRound, roundToolResults_isEmpty]
  cases h : hasToolUse resp.content <;> simp

theorem innerRound_grows (table : String → Option Tool) (conv : List Turn)
    (resp : LLMResponse) :
    conv <+: (innerRound table conv resp).1 := by
  unfold innerRound
  dsimp only
  split
  · exact List.prefix_append _ _
  · exact (List.prefix_append _ _).trans (List.prefix_append _ _)

theorem innerLoop_grows (table : String → Option Tool)
    (script : Nat → LLMResponse) :
    ∀ (fuel i : Nat) (conv : List Turn),
      conv <+: (innerLoop table script fuel i conv).1 := by
  intro fuel
  induction fuel with
  | zero => intro i conv; exact List.prefix_rfl
  | succ n ih =>
      intro i conv
      unfold innerLoop
      dsimp only
      split
      · exact (innerRound_grows table conv (script i)).trans (ih _ _)
      · exact innerRound_grows table conv (script i)

theorem innerLoop_rounds_pos (table : String → Option Tool)
    (script : Nat → LLMResponse) (fuel i : Nat) (conv : List Turn) :
    1 ≤ (innerLoop table script (fuel + 1) i conv).2 := by
  unfold innerLoop
  dsimp only
  split
  · omega
  · omega

theorem outerIter_grows (table : String → Option Tool)
    (script : Nat → LLMResponse) (fuel : Nat) (raw : String) (conv : List Turn) :
    conv <+: (outerIter table script fuel raw conv).1 := by
  unfold outerIter
  dsimp only
  split
  · exact List.prefix_rfl
  · exact (List.prefix_append _ _).trans (innerLoop_grows _ _ _ _ _)

theorem session_grows (table : String → Option Tool) (fuel : Nat) :
    ∀ (scripts : List (String × (Nat → LLMResponse))) (conv : List Turn),
      conv <+: session table fuel scripts conv := by
  intro scripts
  induction scripts with
  | nil => intro conv; exact List.prefix_rfl
  | cons p rest ih =>
      intro conv
      exact (outerIter_grows table p.2 fuel p.1 conv).trans (ih _)

/-- C1: for every model response, the dispatch loop produces exactly one
tool-result entry per tool-use block, each carrying the identifier of the
block it answers, in response order, and (the response containing at least
one tool-use block) the round appends the assistant turn followed by one
single new turn holding all the tool results. -/
theorem dispatch_results_match_blocks (table : String → Option Tool)
    (conv : List Turn) (resp : LLMResponse)
    (h : hasToolUse resp.content = true) :
    (roundToolResults table resp.content).map ToolResultEntry.tool_use_id
        = toolUseIds resp.content
    ∧ (roundToolResults table resp.content).length = countToolUses resp.content
    ∧ innerRound table conv resp
        = (conv ++ [⟨"assistant", TurnContent.blocks resp.content⟩,
             ⟨"user", TurnContent.results (roundToolResults table resp.content)⟩],
           true) := by
  refine ⟨roundToolResults_map_id table resp.content,
    roundToolResults_length table resp.content, ?_⟩
  simp only [innerRound, roundToolResults_isEmpty, h]
  simp

/-- Witness for C1 at a one-block response. -/
theorem dispatch_results_match_blocks_w :
    hasToolUse [ContentBlock.toolUse "i1" "t" []] = true
    ∧ ((roundToolResults (fun _ => none) [ContentBlock.toolUse "i1" "t" []]).map
          ToolResultEntry.tool_use_id
        = toolUseIds [ContentBlock.toolUse "i1" "t" []]
      ∧ (roundToolResults (fun _ => none)
          [ContentBlock.toolUse "i1" "t" []]).length
        = countToolUses [ContentBlock.toolUse "i1" "t" []]
      ∧ innerRound (fun _ => none) []
          ⟨[ContentBlock.toolUse "i1" "t" []], ⟨1, 2⟩⟩
        = ([⟨"assistant", TurnContent.blocks [ContentBlock.toolUse "i1" "t" []]⟩,
            ⟨"user", TurnContent.results (roundToolResults (fun _ => none)
               [ContentBlock.toolUse "i1" "t" []])⟩], true)) :=
  ⟨by decide,
    dispatch_results_match_blocks (fun _ => none) []
      ⟨[ContentBlock.toolUse "i1" "t" []], ⟨1, 2⟩⟩ (by decide)⟩

/-- C2: a registered tool whose body faults never re-raises past the
dispatcher: the outcome is the string combining the tool name and the fault
message, and that string becomes the tool-result payload of the round. -/
theorem tool_fault_caught (name : String) (table : String → Option Tool)
    (args : Args) (f : Tool) (e : String)
    (hf : table name = some f) (he : f args = Except.error e) :
    (execute_tool name table args).1
        = "Error: Calling tool " ++ name ++ "\n" ++ e
    ∧ (execute_tool name table args).2
        = [UIEvent.toolRequest name args,
           UIEvent.toolError name ("Error: Calling tool " ++ name ++ "\n" ++ e)]
    ∧ (∀ (id : String) (rest : List ContentBlock),
        roundToolResults table (ContentBlock.toolUse id name args :: rest)
          = ⟨id, "Error: Calling tool " ++ name ++ "\n" ++ e⟩
              :: roundToolResults table rest) := by
  have hx := execute_tool_found_err name table args f e hf he
  refine ⟨by rw [hx], by rw [hx], ?_⟩
  intro id rest
  simp [roundToolResults, hx]

/-- Witness for C2 at the concrete faulting tool "boom". -/
theorem tool_fault_caught_w :
    ((fun _ : String =>
        some (fun _ : Args =>
          (Except.error "division by zero" : Except String String))) "boom"
      = some (fun _ : Args =>
          (Except.error "division by zero" : Except String String)))
    ∧ ((fun _ : Args =>
          (Except.error "division by zero" : Except String String)) []
        = Except.error "division by zero")
    ∧ (execute_tool "boom"
          (fun _ => some (fun _ => Except.error "division by zero")) []).1
        = "Error: Calling tool " ++ "boom" ++ "\n" ++ "division by zero" :=
  ⟨rfl, rfl,
    (tool_fault_caught "boom"
      (fun _ => some (fun _ => Except.error "division by zero")) []
      (fun _ => Except.error "division by zero") "division by zero"
      rfl rfl).1⟩

/-- C3 counterexample: dispatching the unknown tool name "delete_everything"
writes the outcome to the observational layer twice, not exactly once, so
the branch taken does matter. -/
theorem dispatch_reports_once_cex :
    ¬ (countOutcomes
        (execute_tool "delete_everything" (fun _ => none) []).2 = 1)
    ∧ countOutcomes
        (execute_tool "delete_everything" (fun _ => none) []).2 = 2 := by
  constructor
  · decide
  · decide

/-- C3 amended: every dispatch writes the request exactly once; the outcome
is written exactly once when the name is registered (success or fault) and
twice when the name is unknown. -/
theorem dispatch_report_counts (name : String) (table : String → Option Tool)
    (args : Args) :
    countRequests (execute_tool name table args).2 = 1
    ∧ countOutcomes (execute_tool name table args).2
        = (if (table name).isSome then 1 else 2) := by
  cases h : table name with
  | none =>
      rw [execute_tool_none name table args h]
      constructor <;>
        simp [countRequests, countOutcomes, List.filter_cons, List.filter_nil,
          isRequestEvent, isOutcomeEvent]
  | some f =>
      cases hr : f args with
      | ok r =>
          rw [execute_tool_found_ok name table args f r h hr]
          constructor <;>
            simp [countRequests, countOutcomes, List.filter_cons,
              List.filter_nil, isRequestEvent, isOutcomeEvent]
      | error e =>
          rw [execute_tool_found_err name table args f e h hr]
          constructor <;>
            simp [countRequests, countOutcomes, List.filter_cons,
              List.filter_nil, isRequestEvent, isOutcomeEvent]

/-- C4: an unknown tool name never raises past the dispatcher: the outcome
is a string beginning with "Error:", it is injected into the conversation as
the tool-result payload, and the round carries on to another model call. -/
theorem unknown_tool_no_crash (name : String) (table : String → Option Tool)
    (args : Args) (h : table name = none) :
    beginsWith "Error:" (execute_tool name table args).1
    ∧ (∀ (id : String) (rest : List ContentBlock),
        roundToolResults table (ContentBlock.toolUse id name args :: rest)
          = ⟨id, (execute_tool name table args).1⟩
              :: roundToolResults table rest)
    ∧ (∀ (conv : List Turn) (id : String) (u : Usage),
        (innerRound table conv ⟨[ContentBlock.toolUse id name args], u⟩).2
          = true) := by
  have hx := execute_tool_none name table args h
  refine ⟨?_, ?_, ?_⟩
  · unfold beginsWith
    rw [hx]
    simp only [String.data_append, List.append_assoc]
    exact (by decide : "Error:".data <+: "Error: Calling tool ".data).trans
      (List.prefix_append _ _)
  · intro id rest
    rfl
  · intro conv id u
    rw [innerRound_continue]
    rfl

/-- Witness for C4 at the unregistered name "delete_everything". -/
theorem unknown_tool_no_crash_w :
    ((fun _ : String => (none : Option Tool)) "delete_everything" = none)
    ∧ beginsWith "Error:"
        (execute_tool "delete_everything" (fun _ => none) []).1 :=
  ⟨rfl, (unknown_tool_no_crash "delete_everything" (fun _ => none) [] rfl).1⟩

/-- C5: an input line that strips to the empty string triggers no model call
and leaves the conversation history unchanged. -/
theorem empty_input_no_call (table : String → Option Tool)
    (script : Nat → LLMResponse) (fuel : Nat) (raw : String)
    (conv : List Turn) (h : strip raw = "") :
    outerIter table script fuel raw conv = (conv, 0) := by
  have he : ("" : String).isEmpty = true := by decide
  simp [outerIter, h, he]

/-- Witness for C5 at a whitespace-only input line. -/
theorem empty_input_no_call_w :
    strip "  \t " = ""
    ∧ outerIter (fun _ => none) (fun _ => ⟨[], ⟨0, 0⟩⟩) 1 "  \t " []
        = ([], 0) :=
  ⟨by decide,
    empty_input_no_call (fun _ => none) (fun _ => ⟨[], ⟨0, 0⟩⟩) 1 "  \t " []
      (by decide)⟩

/-- C6: the inner tool-calling loop exits after exactly one model round when
that round's response contains no tool-use block, and performs a further
model round whenever the response contains at least one tool-use block. -/
theorem inner_loop_round_count (table : String → Option Tool)
    (script : Nat → LLMResponse) (conv : List Turn) (i fuel : Nat) :
    (hasToolUse (script i).content = false →
       (innerLoop table script (fuel + 1) i conv).2 = 1)
    ∧ (hasToolUse (script i).content = true →
       2 ≤ (innerLoop table script (fuel + 2) i conv).2) := by
  have hc := innerRound_continue table conv (script i)
  constructor
  · intro h
    rw [h] at hc
    simp only [innerLoop]
    rw [hc]
    simp
  · intro h
    rw [h] at hc
    have hp := innerLoop_rounds_pos table script fuel (i + 1)
      (innerRound table conv (script i)).1
    simp only [innerLoop]
    rw [hc]
    simp only [if_true]
    exact Nat.succ_le_succ hp

/-- Witness for C6: a text-only response ends the loop in one round; a
tool-using response makes the loop perform a second round. -/
theorem inner_loop_round_count_w :
    (hasToolUse
        ((fun _ : Nat =>
          (⟨[ContentBlock.text "hi"], ⟨0, 0⟩⟩ : LLMResponse)) 0).content = false
      ∧ (innerLoop (fun _ => none)
          (fun _ => ⟨[ContentBlock.text "hi"], ⟨0, 0⟩⟩) 1 0 []).2 = 1)
    ∧ (hasToolUse
        ((fun _ : Nat =>
          (⟨[ContentBlock.toolUse "i1" "t" []], ⟨0, 0⟩⟩ : LLMResponse))
            0).content = true
      ∧ 2 ≤ (innerLoop (fun _ => none)
          (fun _ => ⟨[ContentBlock.toolUse "i1" "t" []], ⟨0, 0⟩⟩) 2 0 []).2) :=
  ⟨⟨by decide,
    (inner_loop_round_count (fun _ => none)
      (fun _ => ⟨[ContentBlock.text "hi"], ⟨0, 0⟩⟩) [] 0 0).1 (by decide)⟩,
   ⟨by decide,
    (inner_loop_round_count (fun _ => none)
      (fun _ => ⟨[ContentBlock.toolUse "i1" "t" []], ⟨0, 0⟩⟩) [] 0 0).2
      (by decide)⟩⟩

/-- C7: the conversation history only ever grows by appending turns: the
prior history is a prefix of the history after any inner round, any run of
the inner loop, any outer iteration, and any whole session. -/
theorem conversation_append_only (table : String → Option Tool)
    (script : Nat → LLMResponse) (fuel i : Nat) (resp : LLMResponse)
    (raw : String) (scripts : List (String × (Nat → LLMResponse)))
    (conv : List Turn) :
    conv <+: (innerRound table conv resp).1
    ∧ conv <+: (innerLoop table script fuel i conv).1
    ∧ conv <+: (outerIter table script fuel raw conv).1
    ∧ conv <+: session table fuel scripts conv :=
  ⟨innerRound_grows table conv resp,
   innerLoop_grows table script fuel i conv,
   outerIter_grows table script fuel raw conv,
   session_grows table fuel scripts conv⟩

/-- C8: with the credential environment variable missing, the entry point
prints the banner and a user-facing error and returns cleanly without
entering the agent loop. -/
theorem missing_key_clean_exit (api_key : Option String)
    (h : api_key = none) :
    main api_key = ([UIEvent.banner, UIEvent.errorMsg apiKeyErrorMsg], false)
    ∧ (main api_key).2 = false := by
  subst h
  exact ⟨rfl, rfl⟩

/-- Witness for C8 at the absent credential. -/
theorem missing_key_clean_exit_w :
    ((none : Option String) = none)
    ∧ (main none = ([UIEvent.banner, UIEvent.errorMsg apiKeyErrorMsg], false)
      ∧ (main none).2 = false) :=
  ⟨rfl, missing_key_clean_exit none rfl⟩

/-- C9: in the registry built from the ordered active-tool list, a later
tool with the same name silently shadows an earlier one: the lookup for
that name resolves to the tool occurring later in the list. -/
theorem later_tool_shadows (l1 l2 l3 : List (String × Tool)) (n : String)
    (t1 t2 : Tool) (h : ∀ p ∈ l3, p.1 ≠ n) :
    buildLookup (l1 ++ (n, t1) :: l2 ++ (n, t2) :: l3) n = some t2 := by
  have h3 : lastMatch l3 n = none := lastMatch_eq_none l3 n h
  rw [buildLookup_eq_lastMatch, lastMatch_append]
  simp [lastMatch, lastMatch_append, h3]

/-- Witness for C9: two registrations named "read_file", the lookup
resolving to the second. -/
theorem later_tool_shadows_w :
    (∀ p ∈ ([] : List (String × Tool)), p.1 ≠ "read_file")
    ∧ buildLookup
        ([] ++ ("read_file", fun _ : Args => Except.ok "one")
          :: [] ++ ("read_file", fun _ : Args => Except.ok "two") :: [])
        "read_file"
      = some (fun _ : Args => Except.ok "two") :=
  ⟨by simp, later_tool_shadows [] [] [] "read_file" _ _ (by simp)⟩

/-- C10: for an unknown tool name, the dispatcher's return value (and hence
the conversation payload) is the exception-handler string made of
"Error: Calling tool", the name, and the fault raised by invoking the
missing implementation; the "Requested tool do not exists" message goes
only to the observational layer and is never the returned string. -/
theorem unknown_tool_return_value (name : String)
    (table : String → Option Tool) (args : Args) (h : table name = none) :
    (execute_tool name table args).1
        = "Error: Calling tool " ++ name ++ "\n" ++ noneCallMsg
    ∧ (execute_tool name table args).2
        = [UIEvent.toolError name
             ("Error: Requested tool do not exists " ++ name),
           UIEvent.toolRequest name args,
           UIEvent.toolError name
             ("Error: Calling tool " ++ name ++ "\n" ++ noneCallMsg)]
    ∧ (execute_tool name table args).1
        ≠ "Error: Requested tool do not exists " ++ name := by
  have hx := execute_tool_none name table args h
  refine ⟨by rw [hx], by rw [hx], ?_⟩
  rw [hx]
  intro heq
  have hlen := congrArg String.length heq
  simp only [String.length_append] at hlen
  have e1 : ("Error: Calling tool " : String).length = 20 := by decide
  have e2 : ("\n" : String).length = 1 := by decide
  have e3 : noneCallMsg.length = 33 := by decide
  have e4 : ("Error: Requested tool do not exists " : String).length = 36 := by
    decide
  rw [e1, e2, e3, e4] at hlen
  omega

/-- Witness for C10 at the unregistered name "delete_everything". -/
theorem unknown_tool_return_value_w :
    ((fun _ : String => (none : Option Tool)) "delete_everything" = none)
    ∧ (execute_tool "delete_everything" (fun _ => none) []).1
        = "Error: Calling tool " ++ "delete_everything" ++ "\n"
            ++ noneCallMsg :=
  ⟨rfl,
    (unknown_tool_return_value "delete_everything" (fun _ => none) []
      rfl).1⟩

end Alduin
